import Mathlib

/-
Verification of the srw_orm data-access layer (Python sources in src/lib):
the identifier/DDL string builders, table-state semantics of truncate,
sequence repair, backup/restore, the entity save dispatch, appointment
generation, the sandbox scope, the docstring schema parser, and the
sandbox query executor. Each Python function is shallowly embedded as an
executable Lean definition mirroring the source line by line; theorems
settle the specification claims about those definitions.
-/

set_option maxHeartbeats 1000000
set_option maxRecDepth 8000

namespace SrwOrm

/-! ## SQL text model: statement splitting and identifier quoting -/

/-- Scanner state while walking a SQL string: outside any literal, inside a
single-quoted string literal, or inside a double-quoted identifier. -/
inductive QuoteState where
  | outside
  | inSingle
  | inDouble
deriving DecidableEq

/-- One scanner step: the next state and 1 when the character is a
statement-separating semicolon (a `;` read outside any quoted region). -/
def semiStep : QuoteState → Char → QuoteState × Nat
  | .outside, c =>
    if c = ';' then (.outside, 1)
    else if c = '\x27' then (.inSingle, 0)
    else if c = '"' then (.inDouble, 0)
    else (.outside, 0)
  | .inSingle, c => if c = '\x27' then (.outside, 0) else (.inSingle, 0)
  | .inDouble, c => if c = '"' then (.outside, 0) else (.inDouble, 0)

/-- Walk a character list, returning the final scanner state and the number
of statement-separating semicolons seen. -/
def scanSemis : QuoteState → List Char → QuoteState × Nat
  | st, [] => (st, 0)
  | st, c :: cs =>
    let s1 := semiStep st c
    let s2 := scanSemis s1.1 cs
    (s2.1, s1.2 + s2.2)

/-- Number of semicolons of a SQL string that lie outside every quoted
region: a rendered statement is a single statement (no injected second
statement) exactly when this is 0. -/
def semicolonsOutsideQuotes (s : String) : Nat :=
  (scanSemis .outside s.data).2

/-- Doubling of embedded double quotes, as the replace of one double quote by two does
inside psycopg2 identifier rendering. -/
def escapeQuotes : List Char → List Char
  | [] => []
  | c :: cs => if c = '"' then '"' :: '"' :: escapeQuotes cs else c :: escapeQuotes cs

/-- Models psycopg2 `sql.Identifier(name)` rendering (the quoting function
used by `delete_all_data`, `drop_table`, `backup_table` and the COPY in
`restore_table`): the name with embedded double quotes doubled, wrapped in
double quotes. -/
def quote_identifier (name : String) : String :=
  String.mk ('"' :: (escapeQuotes name.data ++ ['"']))

/-! ## DDL / DML query builders from src/lib/orm.py (class DataBase) -/

/-- Models `model_class.__name__.lower()`, the canonical table name:
every character lower-cased. -/
def class_table_name (className : String) : String :=
  String.mk (className.data.map Char.toLower)

/-- Models `DataBase.create_table`: the query is built by raw f-string
interpolation `f"CREATE TABLE IF NOT EXISTS {table_name} ({columns_str})"`
with columns_str the comma-space join of the columns; the table name is NOT quoted. -/
def create_table_query (table_name : String) (columns : List String) : String :=
  "CREATE TABLE IF NOT EXISTS " ++ table_name ++ " (" ++ String.intercalate ", " columns ++ ")"

/-- Models the truncate issued by `DataBase.delete_all_data`, built with
`sql.SQL("TRUNCATE TABLE {} RESTART IDENTITY CASCADE").format(sql.Identifier(table_name))`. -/
def delete_truncate_query (table_name : String) : String :=
  "TRUNCATE TABLE " ++ quote_identifier table_name ++ " RESTART IDENTITY CASCADE"

/-- Models the truncate issued inside `DataBase.restore_table`, built by raw
f-string interpolation `f"TRUNCATE TABLE {table_name} RESTART IDENTITY CASCADE"`. -/
def restore_truncate_query (table_name : String) : String :=
  "TRUNCATE TABLE " ++ table_name ++ " RESTART IDENTITY CASCADE"

/-- Models `DataBase.drop_table`: `sql.SQL("DROP TABLE IF EXISTS {} CASCADE")`
with a quoted identifier. -/
def drop_table_query (table_name : String) : String :=
  "DROP TABLE IF EXISTS " ++ quote_identifier table_name ++ " CASCADE"

/-- Models the COPY statement of `DataBase.backup_table` (quoted identifier). -/
def backup_copy_query (table_name : String) : String :=
  "COPY " ++ quote_identifier table_name ++ " TO STDOUT WITH CSV HEADER"

/-- Models the COPY statement of `DataBase.restore_table` (quoted identifier). -/
def restore_copy_query (table_name : String) : String :=
  "COPY " ++ quote_identifier table_name ++ " FROM STDIN WITH CSV HEADER"

/-- Models `DataBase.save_patient`: the INSERT text interpolates
`Patient.__name__.lower()` raw (values are bound parameters `%s`). -/
def save_patient_query (table_name : String) : String :=
  "INSERT INTO " ++ table_name ++ " (name, age, gender) VALUES (%s, %s, %s)"

/-- Models `DataBase.save_doctor`: raw-interpolated table name. -/
def save_doctor_query (table_name : String) : String :=
  "INSERT INTO " ++ table_name ++ " (name, specialty) VALUES (%s, %s)"

/-- Models `DataBase.save_appointment`: raw-interpolated table name. -/
def save_appointment_query (table_name : String) : String :=
  "INSERT INTO " ++ table_name ++ " (patient_id, doctor_id, appointment_date) VALUES (%s, %s, %s)"

/-- Column definitions returned by `Patient.get_columns` in src/lib/orm.py. -/
def patientColumns : List String :=
  ["patient_id SERIAL PRIMARY KEY",
   "name VARCHAR(100) CHECK (char_length(name) > 0)",
   "age INTEGER CHECK (age >= 0 AND age <= 120)",
   "gender VARCHAR(10) CHECK (gender IN (\x27Male\x27, \x27Female\x27))"]

/-- Column definitions returned by `Doctor.get_columns` in src/lib/orm.py. -/
def doctorColumns : List String :=
  ["doctor_id SERIAL PRIMARY KEY",
   "name VARCHAR(100) CHECK (char_length(name) > 0)",
   "specialty VARCHAR(100) CHECK (char_length(specialty) > 0)"]

/-- Column definitions returned by `Appointment.get_columns` in src/lib/orm.py. -/
def appointmentColumns : List String :=
  ["appointment_id SERIAL PRIMARY KEY",
   "patient_id INTEGER REFERENCES patient(patient_id) ON DELETE CASCADE",
   "doctor_id INTEGER REFERENCES doctor(doctor_id) ON DELETE CASCADE",
   "appointment_date TIMESTAMP"]

/-- Engine semantics of `CREATE TABLE [IF NOT EXISTS]` against one table
slot: `none` means the table does not exist, `some cols` that it exists
with the given column definitions. Without IF NOT EXISTS a second creation
is rejected; with it the statement is a no-op on an existing table. -/
def exec_create (schema : Option (List String)) (ifNotExists : Bool)
    (columns : List String) : Except String (List String) :=
  match schema with
  | some existing =>
    if ifNotExists then .ok existing
    else .error "relation already exists"
  | none => .ok columns

/-! ## Table-state semantics (orm.py DataBase: truncate, sequence repair,
backup, restore, insert) -/

/-- State of one entity table: rows carry an explicit primary-key value and
a payload; `seq` is the value the SERIAL sequence of the table will hand to the
next inserted row (the sequence was set with `is_called = false`). -/
structure TableState (α : Type) where
  rows : List (Nat × α)
  seq : Nat
deriving DecidableEq

/-- Engine semantics of `TRUNCATE TABLE t RESTART IDENTITY CASCADE`: all
rows removed and the identity sequence restarted at 1. -/
def truncate_restart (_ : TableState α) : TableState α :=
  { rows := [], seq := 1 }

/-- Value of the SQL subquery `(SELECT COALESCE(MAX(pk)+1, 1) FROM t)` used
by `reset_sequence`: max primary key plus one, or 1 for an empty table. -/
def coalesce_max_plus_one (rows : List (Nat × α)) : Nat :=
  match rows.map Prod.fst with
  | [] => 1
  | p :: ps => ps.foldl Nat.max p + 1

/-- Largest primary key among a list of rows (0 when empty). -/
def max_pk (rows : List (Nat × α)) : Nat :=
  (rows.map Prod.fst).foldl Nat.max 0

/-- Models `DataBase.reset_sequence(table_name)`: for each of the three
declared tables it runs `setval(seq, COALESCE(MAX(pk)+1, 1), false)`, so the
next inserted row receives exactly that value; any other name falls through
every branch and nothing is executed. -/
def reset_sequence (table_name : String) (s : TableState α) : TableState α :=
  if table_name = "patient" then { s with seq := coalesce_max_plus_one s.rows }
  else if table_name = "doctor" then { s with seq := coalesce_max_plus_one s.rows }
  else if table_name = "appointment" then { s with seq := coalesce_max_plus_one s.rows }
  else s

/-- Names of the declared entity tables (`Patient`, `Doctor`, `Appointment`
lower-cased). -/
def declaredTable (table_name : String) : Bool :=
  table_name = "patient" || table_name = "doctor" || table_name = "appointment"

/-- Models `DataBase.delete_all_data`: truncate with identity restart, then
`reset_sequence`. -/
def delete_all_data (table_name : String) (s : TableState α) : TableState α :=
  reset_sequence table_name (truncate_restart s)

/-- Models `DataBase.backup_table`: `COPY t TO STDOUT WITH CSV HEADER`
streams the current rows (with their explicit primary keys) into the backup
file; the table state is unchanged. -/
def backup_table (s : TableState α) : List (Nat × α) :=
  s.rows

/-- Engine semantics of `COPY t FROM STDIN WITH CSV HEADER`: the rows of the file, carrying explicit primary-key values, are appended; the sequence is
not consulted. -/
def copy_from (file : List (Nat × α)) (s : TableState α) : TableState α :=
  { s with rows := s.rows ++ file }

/-- Models `DataBase.restore_table`: truncate first, then COPY the backup
file in, then `reset_sequence`. -/
def restore_table (table_name : String) (file : List (Nat × α))
    (s : TableState α) : TableState α :=
  reset_sequence table_name (copy_from file (truncate_restart s))

/-- Engine semantics of an INSERT that omits the primary-key column: the
SERIAL sequence supplies `s.seq` as the key of the new row and advances. -/
def insert_row (x : α) (s : TableState α) : TableState α :=
  { rows := s.rows ++ [(s.seq, x)], seq := s.seq + 1 }

/-! ## Entity save dispatch (orm.py DataBase.save_objects) -/

/-- A Python object handed to `save_objects`: one of the three declared
entity kinds, or an object of any other class. -/
inductive PyObject where
  | patient (name : String) (age : Nat) (gender : String)
  | doctor (name specialty : String)
  | appointment (patient_id doctor_id : Nat) (appointment_date : Nat)
  | unknownKind (className : String)
deriving DecidableEq

/-- A typed INSERT issued by one of the `save_*` routines. -/
inductive InsertStmt where
  | insertPatient (name : String) (age : Nat) (gender : String)
  | insertDoctor (name specialty : String)
  | insertAppointment (patient_id doctor_id : Nat) (appointment_date : Nat)
deriving DecidableEq

/-- Models `DataBase.save_objects`: iterate the list; an `isinstance` chain
dispatches Patient/Doctor/Appointment to their typed insert; an object
matching none of the three branches falls through the chain and the loop
moves on. The function is total: no branch raises. -/
def save_objects : List PyObject → List InsertStmt
  | [] => []
  | .patient n a g :: rest => .insertPatient n a g :: save_objects rest
  | .doctor n sp :: rest => .insertDoctor n sp :: save_objects rest
  | .appointment p d t :: rest => .insertAppointment p d t :: save_objects rest
  | .unknownKind _ :: rest => save_objects rest

/-! ## Appointment generation (orm.py Appointment.generate_appointments) -/

/-- An appointment value produced by the generator; the date is an abstract
timestamp. -/
structure AppointmentV where
  patient_id : Nat
  doctor_id : Nat
  appointment_date : Nat
deriving DecidableEq

/-- Models Python `random.choice(l)` with the randomness supplied as an
index `k`: on an empty list it raises `IndexError`, otherwise it returns
the element at `k` modulo the length. -/
def pychoice : List α → Nat → Except String α
  | [], _ => .error "IndexError: Cannot choose from an empty sequence"
  | x :: xs, k => .ok ((x :: xs).get ⟨k % (xs.length + 1), Nat.mod_lt _ (Nat.succ_pos _)⟩)

/-- Loop body of `Appointment.generate_appointments`: at iteration `i` it
draws a patient id, then a doctor id (each raising IndexError on an empty
pool), then a fake date; `count` iterations remain. -/
def genApptLoop (pids dids : List Nat) (pickP pickD date : Nat → Nat) :
    Nat → Nat → Except String (List AppointmentV)
  | _, 0 => .ok []
  | i, count + 1 => do
    let p ← pychoice pids (pickP i)
    let d ← pychoice dids (pickD i)
    let rest ← genApptLoop pids dids pickP pickD date (i + 1) count
    .ok ({ patient_id := p, doctor_id := d, appointment_date := date i } :: rest)

/-- Models `Appointment.generate_appointments(db, n)` after the two SELECTs
produced the id pools `pids` and `dids`: the loop runs `n` times with the
random choices supplied by the oracles `pickP`, `pickD`, `date`. -/
def generate_appointments (pids dids : List Nat) (pickP pickD date : Nat → Nat)
    (n : Nat) : Except String (List AppointmentV) :=
  genApptLoop pids dids pickP pickD date 0 n

/-! ## database.py operations: outcome of one call (normal return with
printed lines, or a propagated exception) -/

/-- Outcome of handing a statement sequence to the engine. -/
inductive EngineOutcome where
  | ok
  | err (msg : String)
deriving DecidableEq

/-- Result of one Python function call: a normal return carrying the value
and the lines printed during the call, or an uncaught exception. -/
inductive PyCall (α : Type) where
  | ret (val : α) (printed : List String)
  | raised (msg : String)
deriving DecidableEq

/-- A call returned normally (no exception reached the caller). -/
def PyCall.returnsNormally : PyCall α → Bool
  | .ret _ _ => true
  | .raised _ => false

/-- Lines printed during a call (none if it raised before returning). -/
def PyCall.printedLines : PyCall α → List String
  | .ret _ p => p
  | .raised _ => []

namespace Dbm

/-- Models `database.py delete_all_data(table_name, params)`: the DELETE is
run inside `try`; success prints a confirmation, and any engine error is
caught by `except (Exception, psycopg2.DatabaseError)`, which prints the
diagnostic and lets the function return `None` normally. -/
def delete_all_data (table_name : String) (engine : EngineOutcome) : PyCall Unit :=
  match engine with
  | .ok => .ret () ["All data deleted from table " ++ table_name ++ "."]
  | .err m => .ret () ["Error deleting data from " ++ table_name ++ " table: " ++ m]

/-- Models `database.py restore_table_data(table_name, file_path, params)`:
DELETE then per-row INSERTs inside `try`; any engine error is caught, the
diagnostic printed, and the function returns `None` normally. -/
def restore_table_data (table_name file_path : String)
    (engine : EngineOutcome) : PyCall Unit :=
  match engine with
  | .ok => .ret () ["Data restored successfully into table " ++ table_name ++
      " from " ++ file_path ++ "."]
  | .err m => .ret () ["Error restoring data into table " ++ table_name ++ ": " ++ m]

/-- Total choice from a list known to be non-empty (the success path of
`random.choice`), with the randomness supplied as an index. -/
def choiceNE (x : α) (xs : List α) (k : Nat) : α :=
  (x :: xs).get ⟨k % (xs.length + 1), Nat.mod_lt _ (Nat.succ_pos _)⟩

/-- Models `database.py generate_appointments_data(n, params)`: it SELECTs
the two id pools, and `if not patient_ids or not doctor_ids` raises
`ValueError` — but that raise sits inside the own `try` of the function, whose
`except (Exception, psycopg2.DatabaseError)` catches it, prints the
message, and returns the empty list normally. With both pools non-empty it
returns `n` generated rows. -/
def generate_appointments_data (n : Nat) (pids dids : List Nat)
    (pickP pickD date time : Nat → Nat) : PyCall (List (Nat × Nat × Nat × Nat)) :=
  match pids, dids with
  | [], _ =>
    .ret [] ["Error generating appointments data: Patients and Doctors tables must have data before generating appointments."]
  | _ :: _, [] =>
    .ret [] ["Error generating appointments data: Patients and Doctors tables must have data before generating appointments."]
  | p :: ps, d :: ds =>
    .ret ((List.range n).map fun i =>
      (choiceNE p ps (pickP i), choiceNE d ds (pickD i), date i, time i)) []

end Dbm

/-! ## Sandbox lifecycle (orm.py DatabaseSandbox) -/

/-- Observable state of the world around one sandbox: whether the sandbox
database exists, whether the manager holds an open connection to it, and
how many other sessions are connected to it. -/
structure SandboxWorld where
  sandboxExists : Bool
  connected : Bool
  sessions : Nat
deriving DecidableEq

/-- The primitive steps the `DatabaseSandbox` scope can take. -/
inductive SbAction where
  | createSandbox
  | connect
  | bodyStep
  | disconnect
  | dropSandbox
deriving DecidableEq

/-- Effect of one step on the world. `createSandbox` models
`create_sandbox`: terminate sessions against the sandbox name, `DROP
DATABASE IF EXISTS`, then `CREATE DATABASE ... TEMPLATE ...`. `dropSandbox`
models `drop_sandbox`: terminate remaining sessions, then `DROP DATABASE
IF EXISTS`, after which the sandbox does not exist. Body steps mutate only
data inside the sandbox. -/
def applySbAction (w : SandboxWorld) : SbAction → SandboxWorld
  | .createSandbox => { sandboxExists := true, connected := w.connected, sessions := 0 }
  | .connect => { w with connected := true, sessions := w.sessions + 1 }
  | .bodyStep => w
  | .disconnect =>
    if w.connected then { w with connected := false, sessions := w.sessions - 1 } else w
  | .dropSandbox => { sandboxExists := false, connected := w.connected, sessions := 0 }

/-- Run a sequence of steps from a starting world. -/
def runSbActions (w : SandboxWorld) (acts : List SbAction) : SandboxWorld :=
  acts.foldl applySbAction w

/-- What the code using the sandbox did: how many operations it ran, and
whether it then raised instead of completing normally. -/
structure SandboxBody where
  steps : Nat
  raises : Option String
deriving DecidableEq

/-- Models `with DatabaseSandbox(...)`: `__enter__` runs `create_sandbox`
then `connect`; the body runs its steps; the Python context-manager protocol
then runs `__exit__` — `disconnect` followed by `drop_sandbox` — whether
the body completed normally or raised. -/
def withDatabaseSandbox (body : SandboxBody) : List SbAction :=
  [.createSandbox, .connect] ++ List.replicate body.steps .bodyStep ++
    [.disconnect, .dropSandbox]

/-! ## Docstring schema parser (orm_docstrings.py get_columns):
re.findall of the pattern word-chars, colon, space, word-chars, space,
anything, applied per line (the dot of the pattern cannot cross a line
break, and a match consumes the rest of its line, so each line yields at
most one match and findall returns matches in line order) -/

/-- A word character of the pattern backslash-w (letters, digits,
underscore). -/
def isWordChar (c : Char) : Bool :=
  c.isAlphanum || c = '_'

/-- Maximal leading run of word characters and the remainder. -/
def takeWordRun : List Char → List Char × List Char
  | [] => ([], [])
  | c :: cs =>
    if isWordChar c then
      let r := takeWordRun cs
      (c :: r.1, r.2)
    else ([], c :: cs)

/-- Anchored match of the field pattern at the start of `cs`: a non-empty
word run (group 1), then a colon and a space, then a non-empty word run
followed by a space and the rest of the line (group 2). Backtracking
cannot shorten either word run: the character after a shorter run is a
word character, never the required colon or space. -/
def matchFieldAt (cs : List Char) : Option (String × String) :=
  let r1 := takeWordRun cs
  if r1.1.isEmpty then none
  else
    match r1.2 with
    | ':' :: ' ' :: rest2 =>
      let r2 := takeWordRun rest2
      if r2.1.isEmpty then none
      else
        match r2.2 with
        | ' ' :: rest4 => some (String.mk r1.1, String.mk (r2.1 ++ ' ' :: rest4))
        | _ => none
    | _ => none

/-- Leftmost match in one line: the scanner tries every start position, as
re.findall does. -/
def findFieldMatch : List Char → Option (String × String)
  | [] => none
  | c :: cs =>
    match matchFieldAt (c :: cs) with
    | some r => some r
    | none => findFieldMatch cs

/-- Whether a docstring line carries a recognized field declaration. -/
def recognizesField (line : String) : Bool :=
  (findFieldMatch line.data).isSome

/-- Rendering of one matched declaration, `f"{field_name} {field_type}"`. -/
def render_column (m : String × String) : String :=
  m.1 ++ " " ++ m.2

/-- Models `get_columns` of orm_docstrings.py on the docstring split into
lines: each recognized line contributes its rendered column string, in
line order; unrecognized lines contribute nothing and raise nothing. -/
def get_columns : List String → List String
  | [] => []
  | l :: ls =>
    match findFieldMatch l.data with
    | some m => render_column m :: get_columns ls
    | none => get_columns ls

/-- The docstring of class `Patient` in orm_docstrings.py, split into
lines. -/
def patientDocstring : List String :=
  ["",
   "    Модель для хранения данных о пациентах.",
   "",
   "    patient_id: SERIAL PRIMARY KEY",
   "    name: VARCHAR(100) CHECK (char_length(name) > 0)",
   "    age: INTEGER CHECK (age >= 0 AND age <= 120)",
   "    gender: VARCHAR(10) CHECK (gender IN (\x27Male\x27, \x27Female\x27))",
   "    "]

/-! ## Sandbox query executor (orm.py DatabaseSandbox.execute_query) -/

/-- The `params` argument of `execute_query`: a Python list, a tuple, or
`None`. -/
inductive PyParams (α : Type) where
  | plist (l : List α)
  | ptuple (t : α)
  | pnone
deriving DecidableEq

/-- Cursor state after zero or more `cur.execute` calls: whether the last
statement produced a result description, and its rows. -/
structure CursorState (β : Type) where
  description : Bool
  results : List β
deriving DecidableEq

/-- A cursor on which nothing has been executed: no description, no rows. -/
def freshCursor : CursorState β :=
  { description := false, results := [] }

/-- The tail of `execute_query`: `if cur.description: return cur.fetchall()
else: return None`. -/
def fetch_result (cur : CursorState β) : Option (List β) :=
  if cur.description then some cur.results else none

/-- The `for param in params: cur.execute(query, param)` loop: each call
replaces the cursor state; the log records every execution in order. -/
def execLoop (run : Option α → CursorState β) :
    List α → CursorState β → List (Option α) × CursorState β
  | [], st => ([], st)
  | p :: ps, _ =>
    let r := execLoop run ps (run (some p))
    (some p :: r.1, r.2)

/-- Models `DatabaseSandbox.execute_query(query, params)` with the engine
behaviour of one `cur.execute` supplied as `run`: a list parameter executes
the query once per element in order; a tuple or `None` executes it exactly
once; afterwards the rows are fetched only if the cursor has a description.
Returns the execution log and the returned value. -/
def execute_query (run : Option α → CursorState β) (params : PyParams α) :
    List (Option α) × Option (List β) :=
  let r :=
    match params with
    | .plist l => execLoop run l freshCursor
    | .ptuple t => ([some t], run (some t))
    | .pnone => ([none], run none)
  (r.1, if r.2.description then some r.2.results else none)

/-! ## Helper lemmas -/

theorem data_append (s t : String) : (s ++ t).data = s.data ++ t.data := rfl

theorem scanSemis_append (l1 l2 : List Char) (st : QuoteState) :
    scanSemis st (l1 ++ l2) =
      ((scanSemis (scanSemis st l1).1 l2).1,
       (scanSemis st l1).2 + (scanSemis (scanSemis st l1).1 l2).2) := by
  induction l1 generalizing st with
  | nil => simp [scanSemis]
  | cons c cs ih => simp [scanSemis, ih, Nat.add_assoc]

theorem scanSemis_escaped (cs : List Char) :
    scanSemis .inDouble (escapeQuotes cs) = (.inDouble, 0) := by
  induction cs with
  | nil => rfl
  | cons c cs ih =>
    by_cases h : c = '"'
    · simp [escapeQuotes, h, scanSemis, semiStep, ih]
    · simp [escapeQuotes, h, scanSemis, semiStep, ih]

theorem scanSemis_quote_identifier (name : String) :
    scanSemis .outside (quote_identifier name).data = (.outside, 0) := by
  show scanSemis .outside ('"' :: (escapeQuotes name.data ++ ['"'])) = (.outside, 0)
  simp [scanSemis, semiStep, scanSemis_append, scanSemis_escaped]

theorem semis_around_quoted (pre post name : String)
    (hpre : scanSemis .outside pre.data = (.outside, 0))
    (hpost : scanSemis .outside post.data = (.outside, 0)) :
    semicolonsOutsideQuotes (pre ++ quote_identifier name ++ post) = 0 := by
  unfold semicolonsOutsideQuotes
  rw [data_append, data_append, scanSemis_append, scanSemis_append, hpre,
    scanSemis_quote_identifier, hpost]
  rfl

/-! ## C1: identifier quoting in the rendered SQL -/

/-- C1 counterexample: `DataBase.create_table` interpolates the lower-cased
class name into the DDL raw. For a class named with an embedded
semicolon the rendered text is not the quoted rendering and contains two
statement-separating semicolons, so it is not a single intended statement. -/
theorem create_table_interpolates_raw :
    create_table_query (class_table_name "P; DROP TABLE patient; --") ["x INTEGER"]
      ≠ "CREATE TABLE IF NOT EXISTS " ++
        quote_identifier (class_table_name "P; DROP TABLE patient; --") ++ " (x INTEGER)"
    ∧ semicolonsOutsideQuotes
        (create_table_query (class_table_name "P; DROP TABLE patient; --") ["x INTEGER"]) = 2 := by
  refine ⟨?_, ?_⟩ <;> decide

/-- C1 (amended): the truncate of `delete_all_data`, `drop_table`, and both
COPY statements render the table name through the quoting function, and for
every name — semicolons, quotes and keywords included — they stay a single
statement; but `create_table`, the truncate inside `restore_table`, and the
per-entity INSERT builders interpolate the lower-cased class name raw. For
the declared entity set (patient, doctor, appointment) those raw names are
fixed lowercase identifiers and every rendered statement is single. -/
theorem identifier_quoting_mixed (name : String) :
    semicolonsOutsideQuotes (delete_truncate_query name) = 0
    ∧ semicolonsOutsideQuotes (drop_table_query name) = 0
    ∧ semicolonsOutsideQuotes (backup_copy_query name) = 0
    ∧ semicolonsOutsideQuotes (restore_copy_query name) = 0
    ∧ semicolonsOutsideQuotes (create_table_query "patient" patientColumns) = 0
    ∧ semicolonsOutsideQuotes (create_table_query "doctor" doctorColumns) = 0
    ∧ semicolonsOutsideQuotes (create_table_query "appointment" appointmentColumns) = 0
    ∧ semicolonsOutsideQuotes (restore_truncate_query "patient") = 0
    ∧ semicolonsOutsideQuotes (restore_truncate_query "doctor") = 0
    ∧ semicolonsOutsideQuotes (restore_truncate_query "appointment") = 0
    ∧ semicolonsOutsideQuotes (save_patient_query "patient") = 0
    ∧ semicolonsOutsideQuotes (save_doctor_query "doctor") = 0
    ∧ semicolonsOutsideQuotes (save_appointment_query "appointment") = 0 := by
  refine ⟨semis_around_quoted _ _ name (by decide) (by decide),
    semis_around_quoted _ _ name (by decide) (by decide),
    semis_around_quoted _ _ name (by decide) (by decide),
    semis_around_quoted _ _ name (by decide) (by decide),
    ?_, ?_, ?_, ?_, ?_, ?_, ?_, ?_, ?_⟩ <;> decide

/-! ## C2: sandbox release on every exit path -/

/-- C2: whenever `DatabaseSandbox` is entered and exited as a scoped
resource, `drop_sandbox` is executed on exit — the scope always ends with
`disconnect` followed by `drop_sandbox`, whatever the body did and whether
it completed normally or raised — and afterwards the sandbox database no
longer exists and no session remains against it. -/
theorem sandbox_released_on_every_exit (body : SandboxBody) (w : SandboxWorld) :
    SbAction.dropSandbox ∈ withDatabaseSandbox body
    ∧ (∃ pre, withDatabaseSandbox body =
        pre ++ [SbAction.disconnect, SbAction.dropSandbox])
    ∧ (runSbActions w (withDatabaseSandbox body)).sandboxExists = false
    ∧ (runSbActions w (withDatabaseSandbox body)).sessions = 0 := by
  refine ⟨by simp [withDatabaseSandbox],
    ⟨[SbAction.createSandbox, SbAction.connect] ++
      List.replicate body.steps SbAction.bodyStep, by simp [withDatabaseSandbox]⟩,
    ?_, ?_⟩ <;>
  simp [withDatabaseSandbox, runSbActions, List.foldl_append, applySbAction]

/-! ## C3 and C4: sequence repair and backup round trip -/

theorem coalesce_eq_max_pk (file : List (Nat × α)) (h : file ≠ []) :
    coalesce_max_plus_one file = max_pk file + 1 := by
  cases file with
  | nil => exact absurd rfl h
  | cons r rs => simp [coalesce_max_plus_one, max_pk, Nat.zero_max]

/-- C3: for every table in the declared set, `delete_all_data` leaves the
table empty and positions the sequence so that the next inserted row
receives primary key 1; and `restore_table` of a backup whose rows carry
explicit primary keys with maximum `max_pk file` positions the sequence so
that the next inserted row receives `max_pk file + 1`. -/
theorem sequence_repair_invariant (table : String)
    (hdecl : declaredTable table = true) (s : TableState α) (x y : α)
    (file : List (Nat × α)) (hfile : file ≠ []) :
    (delete_all_data table s).rows = []
    ∧ insert_row x (delete_all_data table s) = { rows := [(1, x)], seq := 2 }
    ∧ (restore_table table file s).rows = file
    ∧ insert_row y (restore_table table file s) =
        { rows := file ++ [(max_pk file + 1, y)], seq := max_pk file + 2 } := by
  simp only [declaredTable, Bool.or_eq_true, decide_eq_true_eq] at hdecl
  have hc := coalesce_eq_max_pk file hfile
  rcases hdecl with (h | h) | h <;> subst h <;>
    refine ⟨by simp [delete_all_data, reset_sequence, truncate_restart],
      by simp [delete_all_data, reset_sequence, truncate_restart, insert_row,
        coalesce_max_plus_one],
      by simp [restore_table, reset_sequence, copy_from, truncate_restart], ?_⟩ <;>
    simp [restore_table, reset_sequence, copy_from, truncate_restart, insert_row,
      hc, TableState.mk.injEq]

/-- C4: for every declared table holding at least one row, the sequence
`backup_table`, `delete_all_data`, `restore_table` reproduces exactly the
row set (explicit primary keys included) that existed before the backup,
and the sequence is repaired to max primary key plus one; restore reached
this by truncating first, loading the file, then repairing the sequence. -/
theorem backup_restore_round_trip (table : String)
    (hdecl : declaredTable table = true) (s : TableState α) (hne : s.rows ≠ []) :
    (restore_table table (backup_table s) (delete_all_data table s)).rows = s.rows
    ∧ (restore_table table (backup_table s) (delete_all_data table s)).seq
        = max_pk s.rows + 1 := by
  simp only [declaredTable, Bool.or_eq_true, decide_eq_true_eq] at hdecl
  have hc := coalesce_eq_max_pk s.rows hne
  rcases hdecl with (h | h) | h <;> subst h <;>
    simp [restore_table, reset_sequence, copy_from, truncate_restart,
      delete_all_data, backup_table, hc]

/-- C3 witness: the sequence-repair theorem at the patient table, a
concrete starting state, and the backup file [(3, _), (7, _)]. -/
theorem sequence_repair_invariant_witness :
    declaredTable "patient" = true
    ∧ ([(3, 0), (7, 0)] : List (Nat × Nat)) ≠ []
    ∧ ((delete_all_data "patient"
          ({ rows := [(1, 5)], seq := 2 } : TableState Nat)).rows = []
      ∧ insert_row 9 (delete_all_data "patient"
          ({ rows := [(1, 5)], seq := 2 } : TableState Nat)) =
            { rows := [(1, 9)], seq := 2 }
      ∧ (restore_table "patient" [(3, 0), (7, 0)]
          ({ rows := [(1, 5)], seq := 2 } : TableState Nat)).rows = [(3, 0), (7, 0)]
      ∧ insert_row 4 (restore_table "patient" [(3, 0), (7, 0)]
          ({ rows := [(1, 5)], seq := 2 } : TableState Nat)) =
            { rows := [(3, 0), (7, 0)] ++ [(8, 4)], seq := 9 }) :=
  ⟨by decide, by decide,
    sequence_repair_invariant "patient" (by decide) _ 9 4 [(3, 0), (7, 0)] (by decide)⟩

/-- C4 witness: the round-trip theorem at the doctor table and a two-row
state. -/
theorem backup_restore_round_trip_witness :
    declaredTable "doctor" = true
    ∧ ({ rows := [(2, 10), (5, 11)], seq := 6 } : TableState Nat).rows ≠ []
    ∧ ((restore_table "doctor"
          (backup_table ({ rows := [(2, 10), (5, 11)], seq := 6 } : TableState Nat))
          (delete_all_data "doctor"
            ({ rows := [(2, 10), (5, 11)], seq := 6 } : TableState Nat))).rows
            = [(2, 10), (5, 11)]
      ∧ (restore_table "doctor"
          (backup_table ({ rows := [(2, 10), (5, 11)], seq := 6 } : TableState Nat))
          (delete_all_data "doctor"
            ({ rows := [(2, 10), (5, 11)], seq := 6 } : TableState Nat))).seq = 6) :=
  ⟨by decide, by decide, backup_restore_round_trip "doctor" (by decide) _ (by decide)⟩

/-! ## C5: engine errors in database.py -/

/-- C5 counterexample: `database.py delete_all_data` on an engine failure
(here a lost connection) catches the error and returns `None` normally —
the operation continues with the error swallowed, and the caller receives
no typed failure, only a printed line. -/
theorem delete_all_data_swallows_engine_error :
    (Dbm.delete_all_data "Patients"
      (.err "server closed the connection unexpectedly")).returnsNormally = true
    ∧ Dbm.delete_all_data "Patients" (.err "server closed the connection unexpectedly")
        = .ret () ["Error deleting data from Patients table: server closed the connection unexpectedly"] :=
  ⟨rfl, rfl⟩

/-- C5 (amended): the database.py repository operations named by the claim
catch every engine failure in their own except-handler and return normally
(`None`), raising nothing and returning no typed failure; the engine
diagnostic message survives only in the printed line, which ends with the
diagnostic text. -/
theorem database_ops_catch_and_print (table path m : String) :
    (Dbm.delete_all_data table (.err m)).returnsNormally = true
    ∧ (∃ a, (Dbm.delete_all_data table (.err m)).printedLines = [a ++ m])
    ∧ (Dbm.restore_table_data table path (.err m)).returnsNormally = true
    ∧ (∃ a, (Dbm.restore_table_data table path (.err m)).printedLines = [a ++ m])
    ∧ (∀ eng, (Dbm.delete_all_data table eng).returnsNormally = true)
    ∧ (∀ eng, (Dbm.restore_table_data table path eng).returnsNormally = true) :=
  ⟨rfl, ⟨"Error deleting data from " ++ table ++ " table: ", rfl⟩, rfl,
    ⟨"Error restoring data into table " ++ table ++ ": ", rfl⟩,
    fun eng => by cases eng <;> rfl, fun eng => by cases eng <;> rfl⟩

/-! ## C6: dependent-entity generation and empty reference pools -/

theorem genApptLoop_ok (p : Nat) (ps : List Nat) (d : Nat) (ds : List Nat)
    (pickP pickD date : Nat → Nat) (i count : Nat) :
    ∃ l, genApptLoop (p :: ps) (d :: ds) pickP pickD date i count = .ok l
      ∧ l.length = count
      ∧ ∀ a ∈ l, a.patient_id ∈ p :: ps ∧ a.doctor_id ∈ d :: ds := by
  induction count generalizing i with
  | zero => exact ⟨[], rfl, rfl, by simp⟩
  | succ m ih =>
    obtain ⟨l, hl, hlen, hmem⟩ := ih (i + 1)
    have hp1 : pickP i % (ps.length + 1) < (p :: ps).length := Nat.mod_lt _ (Nat.succ_pos _)
    have hd1 : pickD i % (ds.length + 1) < (d :: ds).length := Nat.mod_lt _ (Nat.succ_pos _)
    refine ⟨AppointmentV.mk ((p :: ps).get ⟨pickP i % (ps.length + 1), hp1⟩)
      ((d :: ds).get ⟨pickD i % (ds.length + 1), hd1⟩) (date i) :: l, ?_, by simp [hlen], ?_⟩
    · simp [genApptLoop, pychoice, hl, bind, Except.bind]
    · intro a ha
      rcases List.mem_cons.1 ha with h | h
      · subst h
        exact ⟨List.get_mem _ _ _, List.get_mem _ _ _⟩
      · exact hmem a h

/-- C6 counterexample: with n = 1 and an empty patient pool, the
database.py generator `generate_appointments_data` returns normally with
the empty list (its own except-handler catches the internal ValueError),
so generation with an empty referenced pool does not fail with a typed
`EmptyReferenceSet` — it produces exactly the empty result the claim
excludes. -/
theorem generate_appointments_data_returns_empty :
    (Dbm.generate_appointments_data 1 [] [7]
      (fun _ => 0) (fun _ => 0) (fun _ => 0) (fun _ => 0)).returnsNormally = true
    ∧ Dbm.generate_appointments_data 1 [] [7]
        (fun _ => 0) (fun _ => 0) (fun _ => 0) (fun _ => 0)
      = .ret [] ["Error generating appointments data: Patients and Doctors tables must have data before generating appointments."] :=
  ⟨rfl, rfl⟩

/-- C6 (amended): when a referenced pool is empty and n ≥ 1, the orm.py
generator `Appointment.generate_appointments` raises an untyped
`IndexError` from `random.choice` (no typed `EmptyReferenceSet` exists in
the code); the database.py generator raises `ValueError` inside its own
`try` and catches it itself, printing the message and returning the empty
list normally. When both pools are non-empty, the generator returns
exactly n appointments whose foreign keys are drawn from the existing
primary-key pools. -/
theorem appointment_generation_reference_pools :
    (∀ (pids dids : List Nat) (pickP pickD date : Nat → Nat) (n : Nat),
      pids = [] ∨ dids = [] → 1 ≤ n →
      generate_appointments pids dids pickP pickD date n =
        .error "IndexError: Cannot choose from an empty sequence")
    ∧ (∀ (pids dids : List Nat) (pickP pickD date : Nat → Nat) (n : Nat),
      pids ≠ [] → dids ≠ [] →
      ∃ l, generate_appointments pids dids pickP pickD date n = .ok l
        ∧ l.length = n
        ∧ ∀ a ∈ l, a.patient_id ∈ pids ∧ a.doctor_id ∈ dids)
    ∧ (∀ (n : Nat) (pids dids : List Nat) (pickP pickD date time : Nat → Nat),
      pids = [] ∨ dids = [] →
      Dbm.generate_appointments_data n pids dids pickP pickD date time =
        .ret [] ["Error generating appointments data: Patients and Doctors tables must have data before generating appointments."]) := by
  refine ⟨?_, ?_, ?_⟩
  · intro pids dids pickP pickD date n h hn
    obtain ⟨m, rfl⟩ : ∃ m, n = m + 1 := ⟨n - 1, by omega⟩
    rcases h with h | h
    · subst h
      simp [generate_appointments, genApptLoop, pychoice, bind, Except.bind]
    · subst h
      cases pids with
      | nil => simp [generate_appointments, genApptLoop, pychoice, bind, Except.bind]
      | cons p ps =>
        simp [generate_appointments, genApptLoop, pychoice, bind, Except.bind]
  · intro pids dids pickP pickD date n hp hd
    cases pids with
    | nil => exact absurd rfl hp
    | cons p ps =>
      cases dids with
      | nil => exact absurd rfl hd
      | cons d ds => exact genApptLoop_ok p ps d ds pickP pickD date 0 n
  · intro n pids dids pickP pickD date time h
    rcases h with h | h
    · subst h
      rfl
    · subst h
      cases pids with
      | nil => rfl
      | cons p ps => rfl

/-- C6 witness: the generation theorem at concrete pools — an empty
patient pool with n = 1 makes orm.py raise IndexError and makes
database.py (empty doctor pool) return the empty list normally; pools
[1, 2] and [3] with n = 2 yield two appointments with keys in the pools. -/
theorem appointment_generation_reference_pools_witness :
    (generate_appointments [] [5] (fun _ => 0) (fun _ => 0) (fun _ => 0) 1
      = .error "IndexError: Cannot choose from an empty sequence")
    ∧ (∃ l, generate_appointments [1, 2] [3] (fun _ => 0) (fun _ => 0) (fun _ => 0) 2 = .ok l
        ∧ l.length = 2 ∧ ∀ a ∈ l, a.patient_id ∈ [1, 2] ∧ a.doctor_id ∈ [3])
    ∧ Dbm.generate_appointments_data 2 [4] [] (fun _ => 0) (fun _ => 0) (fun _ => 0) (fun _ => 0)
        = .ret [] ["Error generating appointments data: Patients and Doctors tables must have data before generating appointments."] :=
  ⟨appointment_generation_reference_pools.1 [] [5] _ _ _ 1 (Or.inl rfl) (by omega),
   appointment_generation_reference_pools.2.1 [1, 2] [3] _ _ _ 2 (by decide) (by decide),
   appointment_generation_reference_pools.2.2 2 [4] [] _ _ _ _ (Or.inr rfl)⟩

/-! ## C7: save dispatch over entity kinds -/

/-- C7 counterexample: `save_objects` on a list containing an object of an
undeclared kind completes normally and silently skips it — no insert is
issued for it and nothing fails; no `UnsupportedEntityKind` error exists
in the code (the isinstance chain has no else branch). -/
theorem save_objects_skips_unknown :
    save_objects [.patient "Anna" 30 "Female", .unknownKind "Nurse"]
      = [.insertPatient "Anna" 30 "Female"]
    ∧ save_objects [.unknownKind "Nurse"] = [] :=
  ⟨rfl, rfl⟩

/-- C7 (amended): `save_objects` dispatches each Patient, Doctor and
Appointment to the typed insert for its kind, in list order; an object of
any kind outside the declared set is silently skipped — deleting it from
the list leaves the issued inserts unchanged — and the operation never
fails. -/
theorem save_objects_dispatch (pre post : List PyObject) (c : String)
    (n gname ns sp : String) (a p d t : Nat) :
    save_objects (pre ++ .unknownKind c :: post) = save_objects (pre ++ post)
    ∧ save_objects [.patient n a gname, .doctor ns sp, .appointment p d t]
      = [.insertPatient n a gname, .insertDoctor ns sp, .insertAppointment p d t] := by
  constructor
  · induction pre with
    | nil => rfl
    | cons o os ih => cases o <;> simp [save_objects, ih]
  · rfl

/-! ## C8: idempotent table creation -/

theorem string_append_assoc (x y z : String) : x ++ y ++ z = x ++ (y ++ z) := by
  obtain ⟨a⟩ := x
  obtain ⟨b⟩ := y
  obtain ⟨c⟩ := z
  exact congrArg String.mk (List.append_assoc a b c)

/-- C8: the DDL rendered by `create_table` opens with
CREATE TABLE IF NOT EXISTS, so under the IF-NOT-EXISTS engine semantics
calling `create_table` twice in sequence never errors: the second call is
a no-op and the schema after the second call is identical to the schema
after the first. -/
theorem create_table_idempotent (schema : Option (List String))
    (cls : String) (cols : List String) :
    (∃ rest, create_table_query (class_table_name cls) cols
      = "CREATE TABLE IF NOT EXISTS " ++ rest)
    ∧ ∃ s1, exec_create schema true cols = .ok s1
        ∧ exec_create (some s1) true cols = .ok s1 := by
  constructor
  · refine ⟨class_table_name cls ++ (" (" ++ (String.intercalate ", " cols ++ ")")), ?_⟩
    simp [create_table_query, string_append_assoc]
  · cases schema with
    | none => exact ⟨cols, rfl, rfl⟩
    | some existing => exact ⟨existing, rfl, rfl⟩

/-! ## C9: docstring schema parsing -/

/-- C9: parsing a schema declaration is a pure text-to-structure transform:
the column list is exactly the rendering of the recognized lines in
declaration order (a filterMap over the lines), a line that does not match
the field pattern is ignored without error — inserting it anywhere leaves
the result unchanged — and on the Patient docstring of orm_docstrings.py
the result is the recognized declarations in line order (the name and
gender lines are not recognized: the pattern requires a space after the
first type word, and VARCHAR is followed there by a parenthesis). -/
theorem get_columns_pure_ordered (doc pre post : List String) (bad : String)
    (hbad : recognizesField bad = false) :
    get_columns doc =
      doc.filterMap (fun l => (findFieldMatch l.data).map render_column)
    ∧ get_columns (pre ++ bad :: post) = get_columns (pre ++ post)
    ∧ get_columns patientDocstring =
        ["patient_id SERIAL PRIMARY KEY",
         "age INTEGER CHECK (age >= 0 AND age <= 120)"] := by
  have hfm : ∀ d, get_columns d =
      d.filterMap (fun l => (findFieldMatch l.data).map render_column) := by
    intro d
    induction d with
    | nil => rfl
    | cons l ls ih =>
      cases hl : findFieldMatch l.data <;> simp [get_columns, hl, ih]
  have hb : findFieldMatch bad.data = none := by
    have := hbad
    unfold recognizesField at this
    cases h : findFieldMatch bad.data with
    | none => rfl
    | some v => rw [h] at this; simp at this
  refine ⟨hfm doc, ?_, by decide⟩
  induction pre with
  | nil => simp [get_columns, hb]
  | cons l ls ih =>
    cases hl : findFieldMatch l.data <;> simp [get_columns, hl, ih]

/-- C9 witness: the parsing theorem at the Patient docstring, with the
unrecognized line chosen as the TIMESTAMP line of the Appointment docstring
(no space follows the type word, so the pattern does not match it). -/
theorem get_columns_pure_ordered_witness :
    recognizesField "appointment_date: TIMESTAMP" = false
    ∧ (get_columns patientDocstring =
        patientDocstring.filterMap
          (fun l => (findFieldMatch l.data).map render_column)
      ∧ get_columns (["x"] ++ "appointment_date: TIMESTAMP" :: ["y: INTEGER Z"])
          = get_columns (["x"] ++ ["y: INTEGER Z"])
      ∧ get_columns patientDocstring =
          ["patient_id SERIAL PRIMARY KEY",
           "age INTEGER CHECK (age >= 0 AND age <= 120)"]) :=
  ⟨by decide, get_columns_pure_ordered patientDocstring ["x"] ["y: INTEGER Z"]
    "appointment_date: TIMESTAMP" (by decide)⟩

/-! ## C10: execute_query parameter dispatch -/

theorem execLoop_log (run : Option α → CursorState β) (l : List α)
    (st : CursorState β) : (execLoop run l st).1 = l.map some := by
  induction l generalizing st with
  | nil => rfl
  | cons p ps ih => simp [execLoop, ih]

theorem execLoop_last (run : Option α → CursorState β) (l : List α) (p : α)
    (st : CursorState β) : (execLoop run (l ++ [p]) st).2 = run (some p) := by
  induction l generalizing st with
  | nil => rfl
  | cons q qs ih => simp [execLoop, ih]

/-- C10: `DatabaseSandbox.execute_query` branches on the type of `params`:
a list executes the query once per element, in list order, and the
returned rows come only from the final execution; a tuple or None executes
the query exactly once; the empty list executes it zero times and the
result is None. -/
theorem execute_query_params_dispatch (run : Option α → CursorState β) :
    (∀ l : List α, (execute_query run (.plist l)).1 = l.map some)
    ∧ (∀ (l : List α) (p : α),
        (execute_query run (.plist (l ++ [p]))).2 = fetch_result (run (some p)))
    ∧ (∀ t : α, execute_query run (.ptuple t) = ([some t], fetch_result (run (some t))))
    ∧ execute_query run .pnone = ([none], fetch_result (run none))
    ∧ execute_query run (.plist []) = ([], none) := by
  refine ⟨fun l => ?_, fun l p => ?_, fun t => rfl, rfl, rfl⟩
  · simpa [execute_query] using execLoop_log run l freshCursor
  · simp [execute_query, fetch_result, execLoop_last run l p freshCursor]

end SrwOrm
